import Mathlib

/-!
Verification of the islambot scheduling-and-delivery core.

The Python sources are shallowly embedded:
* `telegram_bot.py` (`TelegramBot.send_message`, `send_formatted_content`,
  `_get_content_title`) as pure functions over `String` together with an
  explicit trace of externally visible events (transport attempts, sleeps,
  truncation warnings);
* `scheduler.py` (`ContentScheduler.setup_schedule`, `get_schedule_status`,
  `run_content_now`, `_generate_and_send_content`) as functions over an
  explicit scheduler state;
* `main.py` (`IslamicTelegramBot.start`) as one iteration of the supervisor
  loop over an environment of validation outcomes.

The job registry itself lives in the third-party `schedule` library, which is
not part of this repository; its contract (`dueJobs`, `peekUpcoming`, time
parsing) is modelled from the specification where noted.

Python strings are modelled as Lean `String` (a list of code points, matching
Python `len` and slicing); timestamps are modelled as natural numbers counting
minutes, with one day equal to 1440 minutes.
-/

/-- Python `s[:n]`: the first `n` code points of a string. -/
def strTake (s : String) (n : Nat) : String := String.mk (s.data.take n)

/-- Python `s.lower()` (modulo locale; only ASCII matters for the
classification substrings). -/
def strLower (s : String) : String := String.mk (s.data.map Char.toLower)

/-- Substring test on code-point lists: does `pat` occur contiguously in the
list? -/
def subList (pat : List Char) : List Char → Bool
  | [] => pat.isEmpty
  | c :: rest => pat.isPrefixOf (c :: rest) || subList pat rest

/-- Python `pat in s` (substring containment). -/
def containsStr (s pat : String) : Bool := subList pat.data s.data

/-- The three-character marker appended on truncation
(`message[:4090] + "..."` in `send_message`). -/
def ellipsisMark : String := "..."

/-- Result of one underlying transport call (`self.bot.send_message`):
success, an `ApiTelegramException` carrying `str(e)`, or any other
exception. -/
inductive SendRes where
  | ok : SendRes
  | apiErr (emsg : String) : SendRes
  | exn : SendRes
deriving DecidableEq

/-- The classified-error buckets of `send_message`'s `except` branch. -/
inductive ErrKind where
  | rate : ErrKind
  | timeout : ErrKind
  | permanent : ErrKind
  | other : ErrKind
deriving DecidableEq

/-- `send_message`'s classification of `str(e)`: lower-case the text, then
test the substrings in the source's order (`too many requests`, then
`timeout`, then `chat not found` / `bot was blocked`, else other). -/
def classify (emsg : String) : ErrKind :=
  let e := strLower emsg
  if containsStr e "too many requests" then ErrKind.rate
  else if containsStr e "timeout" then ErrKind.timeout
  else if containsStr e "chat not found" || containsStr e "bot was blocked" then
    ErrKind.permanent
  else ErrKind.other

/-- Externally visible events of one `send_message` invocation:
a transport attempt carrying the exact text handed to the transport,
a `time.sleep` of the given number of seconds, and the warning logged
when the payload is truncated. -/
inductive Ev where
  | attempt (text : String) : Ev
  | sleepEv (secs : Nat) : Ev
  | truncWarn : Ev
deriving DecidableEq

/-- Configuration fields set in `TelegramBot.__init__`. -/
structure BotCfg where
  retry_attempts : Nat
  retry_delay : Nat
deriving DecidableEq

/-- The constructor defaults: `retry_attempts = 3`, `retry_delay = 60`. -/
def defaultBotCfg : BotCfg := { retry_attempts := 3, retry_delay := 60 }

/-- The payload-size guard of `send_message`:
`if len(message) > 4096: message = message[:4090] + "..."`. -/
def truncate (message : String) : String :=
  if message.length > 4096 then strTake message 4090 ++ ellipsisMark else message

/-- The trace of the payload-size guard: a warning is logged exactly when the
text is truncated. -/
def truncEvs (message : String) : List Ev :=
  if message.length > 4096 then [Ev.truncWarn] else []

/-- `TelegramBot.send_message(message, retry_count)`.

The transport is abstracted as `api : Nat → String → SendRes`, giving the
outcome of the underlying `bot.send_message` call as a function of the
current `retry_count` and the text actually sent.  The result is the returned
boolean together with the ordered trace of events.  The recursion mirrors the
source: the rate-limited branch sleeps 60 seconds before even checking the
retry budget; the timeout and unclassified branches sleep `retry_delay` only
when a retry is still allowed; the permanent branch and the generic
`except Exception` branch return `False` at once. -/
def send_message (cfg : BotCfg) (api : Nat → String → SendRes)
    (message : String) (retry_count : Nat) : Bool × List Ev :=
  let m := truncate message
  let tEv := truncEvs message
  match api retry_count m with
  | SendRes.ok => (true, tEv ++ [Ev.attempt m])
  | SendRes.exn => (false, tEv ++ [Ev.attempt m])
  | SendRes.apiErr emsg =>
    match classify emsg with
    | ErrKind.rate =>
      if _h : retry_count < cfg.retry_attempts then
        let r := send_message cfg api m (retry_count + 1)
        (r.1, tEv ++ Ev.attempt m :: Ev.sleepEv 60 :: r.2)
      else
        (false, tEv ++ [Ev.attempt m, Ev.sleepEv 60])
    | ErrKind.timeout =>
      if _h : retry_count < cfg.retry_attempts then
        let r := send_message cfg api m (retry_count + 1)
        (r.1, tEv ++ Ev.attempt m :: Ev.sleepEv cfg.retry_delay :: r.2)
      else
        (false, tEv ++ [Ev.attempt m])
    | ErrKind.permanent => (false, tEv ++ [Ev.attempt m])
    | ErrKind.other =>
      if _h : retry_count < cfg.retry_attempts then
        let r := send_message cfg api m (retry_count + 1)
        (r.1, tEv ++ Ev.attempt m :: Ev.sleepEv cfg.retry_delay :: r.2)
      else
        (false, tEv ++ [Ev.attempt m])
termination_by cfg.retry_attempts - retry_count
decreasing_by all_goals omega

/-- Number of transport attempts recorded in a trace. -/
def countAttempts (tr : List Ev) : Nat :=
  tr.countP fun e => match e with | Ev.attempt _ => true | _ => false

/-- Number of sleeps recorded in a trace. -/
def countSleeps (tr : List Ev) : Nat :=
  tr.countP fun e => match e with | Ev.sleepEv _ => true | _ => false

/-- The trace produced by `n` consecutive rate-limited attempts on text `m`:
each attempt is followed by the fixed 60-second cooldown, so every retry is
immediately preceded by a 60-second sleep. -/
def rlBlock (m : String) (n : Nat) : List Ev :=
  List.flatten (List.replicate n [Ev.attempt m, Ev.sleepEv 60])

/-- `emoji_map` from `TelegramBot.send_formatted_content`. -/
def emoji_map : List (String × String) :=
  [("morning_azkar", "🌅"), ("evening_azkar", "🌙"), ("quran_verse", "📖"),
   ("daily_hadith", "📚"), ("daily_dua", "🤲"), ("daily_reminder", "💭")]

/-- `titles` from `TelegramBot._get_content_title`. -/
def titles : List (String × String) :=
  [("morning_azkar", "أذكار الصباح"), ("evening_azkar", "أذكار المساء"),
   ("quran_verse", "آية من القرآن الكريم"), ("daily_hadith", "حديث شريف"),
   ("daily_dua", "دعاء مستجاب"), ("daily_reminder", "تذكرة إيمانية")]

/-- The generic title returned by `_get_content_title` for an unknown
content type. -/
def genericTitle : String := "محتوى إسلامي"

/-- The generic marker used by `send_formatted_content` for an unknown
content type. -/
def genericEmoji : String := "🕌"

/-- `TelegramBot._get_content_title(content_type)`:
`titles.get(content_type, "محتوى إسلامي")`. -/
def get_content_title (content_type : String) : String :=
  (titles.lookup content_type).getD genericTitle

/-- The f-string of `send_formatted_content`:
`f"{emoji} <b>{title}</b>\n\n{content}"`. -/
def formatContent (content_type content : String) : String :=
  let emoji := (emoji_map.lookup content_type).getD genericEmoji
  emoji ++ " <b>" ++ get_content_title content_type ++ "</b>\n\n" ++ content

/-- `TelegramBot.send_formatted_content(content_type, content)`:
empty (falsy) content is rejected before any transport interaction;
otherwise the formatted message is delegated to `send_message` with
`retry_count = 0`. -/
def send_formatted_content (cfg : BotCfg) (api : Nat → String → SendRes)
    (content_type content : String) : Bool × List Ev :=
  if content = "" then (false, [])
  else send_message cfg api (formatContent content_type content) 0

/-- One day, in the minute-valued time model. -/
def dayMinutes : Nat := 1440

/-- A registered job: content type, time of day (minutes after midnight) and
the next firing timestamp (minutes since the epoch).  Mirrors the spec's Job
record; the concrete representation inside the `schedule` library is not part
of this repository. -/
structure Job where
  content_type : String
  time_of_day : Nat
  next_run : Nat
deriving DecidableEq

/-- Modelled from the spec: the `HH:MM` time-of-day parser of the scheduling
primitive (`schedule.every().day.at(time_str)` is third-party code not under
`src/`).  A well-formed value is exactly two digits, a colon, two digits,
with hours below 24 and minutes below 60; anything else is unparseable. -/
def parseTimeOfDay (s : String) : Option Nat :=
  match s.data with
  | [h1, h2, c, m1, m2] =>
    if c = ':' ∧ h1.isDigit ∧ h2.isDigit ∧ m1.isDigit ∧ m2.isDigit then
      let hh := (h1.toNat - 48) * 10 + (h2.toNat - 48)
      let mm := (m1.toNat - 48) * 10 + (m2.toNat - 48)
      if hh ≤ 23 ∧ mm ≤ 59 then some (hh * 60 + mm) else none
    else none
  | _ => none

/-- Modelled from the spec: the initial `next_run` is the earliest
not-yet-passed timestamp matching the time of day — today if not yet passed,
else tomorrow. -/
def initialNextRun (now tod : Nat) : Nat :=
  let today := (now / dayMinutes) * dayMinutes + tod
  if now ≤ today then today else today + dayMinutes

/-- The job built from one `(content_type, time_str)` entry at setup time,
or `none` when the time string is unparseable. -/
def mkJob (now : Nat) (p : String × String) : Option Job :=
  (parseTimeOfDay p.2).map fun tod =>
    { content_type := p.1, time_of_day := tod, next_run := initialNextRun now tod }

/-- `ContentScheduler.default_schedule` from `__init__`. -/
def defaultSchedule : List (String × String) :=
  [("morning_azkar", "06:00"), ("quran_verse", "08:00"),
   ("daily_hadith", "12:00"), ("religious_post", "14:00"),
   ("daily_reminder", "17:00"), ("companion_story", "19:00"),
   ("daily_dua", "20:00"), ("evening_azkar", "21:00")]

/-- Scheduler state: the scheduling primitive's job list (`schedule.jobs`,
cleared and rebuilt by `setup_schedule`) and the scheduler's own
`self.scheduled_jobs` bookkeeping list (never cleared, only appended to). -/
structure SchedState where
  jobs : List Job
  scheduled_jobs : List (String × String)
deriving DecidableEq

/-- The state of a fresh `ContentScheduler`. -/
def initSchedState : SchedState := { jobs := [], scheduled_jobs := [] }

/-- Events logged by the scheduler component. -/
inductive SchedEv where
  | scheduled (content_type time_str : String) : SchedEv
  | skipError (content_type time_str : String) : SchedEv
  | unknownType (content_type : String) : SchedEv
  | triggered (content_type : String) : SchedEv
  | executed (content_type : String) : SchedEv
  | posted (content_type : String) : SchedEv
  | postFailed (content_type : String) : SchedEv
  | noContent (content_type : String) : SchedEv
deriving DecidableEq

/-- `ContentScheduler.setup_schedule(custom_times)`.

`schedule_times = custom_times or self.default_schedule`: Python's `or`
falls back to the defaults when `custom_times` is `None` **or an empty
mapping** (an empty dict is falsy).  The job list is cleared and rebuilt
from every entry whose time string parses, in mapping order; a malformed
entry is skipped with an error log and does not abort the call (the
`try`/`except` around each iteration).  `self.scheduled_jobs` is not
cleared, so successfully scheduled entries are appended to whatever was
there before. -/
def setup_schedule (st : SchedState) (now : Nat)
    (custom_times : Option (List (String × String))) : SchedState × List SchedEv :=
  let times := match custom_times with
    | none => defaultSchedule
    | some l => if l = [] then defaultSchedule else l
  let jobs := times.filterMap (mkJob now)
  let newSched := times.filter fun p => (parseTimeOfDay p.2).isSome
  let evs := times.map fun p =>
    if (parseTimeOfDay p.2).isSome then SchedEv.scheduled p.1 p.2
    else SchedEv.skipError p.1 p.2
  ({ jobs := jobs, scheduled_jobs := st.scheduled_jobs ++ newSched }, evs)

/-- Job comparison used for ordering due and upcoming jobs: ascending
`next_run`, ties broken by content type (the spec's deterministic
tie-break). -/
def jobLeq (a b : Job) : Bool :=
  a.next_run < b.next_run ||
    (a.next_run = b.next_run && !(b.content_type < a.content_type))

/-- Insertion step of the job sort. -/
def insertJob (j : Job) : List Job → List Job
  | [] => [j]
  | x :: xs => if jobLeq j x then j :: x :: xs else x :: insertJob j xs

/-- Insertion sort of jobs by `jobLeq`. -/
def sortJobs : List Job → List Job
  | [] => []
  | x :: xs => insertJob x (sortJobs xs)

/-- Modelled from the spec: `dueJobs(now)` of the Job Registry (the firing
logic lives in the third-party `schedule` library, not under `src/`).
Returns the content types whose `next_run` is at or before `now`, in
ascending `next_run` order, and the registry with each such job's `next_run`
advanced by exactly one day. -/
def dueJobs (now : Nat) (jobs : List Job) : List String × List Job :=
  ((sortJobs (jobs.filter fun j => j.next_run ≤ now)).map Job.content_type,
   jobs.map fun j =>
     if j.next_run ≤ now then { j with next_run := j.next_run + dayMinutes } else j)

/-- Modelled from the spec: `peekUpcoming(n)` — the `n` soonest jobs by
`next_run`, ties broken by content type (the display path
`_log_next_runs` shows the first three of this sequence). -/
def peekUpcoming (jobs : List Job) (n : Nat) : List (String × Nat) :=
  ((sortJobs jobs).take n).map fun j => (j.content_type, j.next_run)

/-- The `ScheduleStatus` snapshot of `get_schedule_status`. -/
structure ScheduleStatus where
  total_jobs : Nat
  scheduled_content_types : Nat
  next_run : Option Nat
deriving DecidableEq

/-- `ContentScheduler.get_schedule_status()`: `total_jobs` counts the
primitive's job list, `scheduled_content_types` counts
`self.scheduled_jobs`, and `next_run` is the soonest `next_run` over all
jobs (absent when there are none). -/
def get_schedule_status (st : SchedState) : ScheduleStatus :=
  { total_jobs := st.jobs.length,
    scheduled_content_types := st.scheduled_jobs.length,
    next_run := (st.jobs.map Job.next_run).min? }

/-- `ContentScheduler._generate_and_send_content(content_type)`.

The content generator is abstracted as `gen : String → Option String`
(`generate_content` returning text or nothing).  Every outcome — no content
generated, delivery success, delivery failure — is logged and swallowed; the
whole body sits in a `try`/`except`, so the function never propagates a
failure and returns no value. -/
def generate_and_send_content (cfg : BotCfg) (gen : String → Option String)
    (api : Nat → String → SendRes) (content_type : String) : List SchedEv :=
  match gen content_type with
  | none => [SchedEv.executed content_type, SchedEv.noContent content_type]
  | some content =>
    if (send_formatted_content cfg api content_type content).1 then
      [SchedEv.executed content_type, SchedEv.posted content_type]
    else
      [SchedEv.executed content_type, SchedEv.postFailed content_type]

/-- `ContentScheduler.run_content_now(content_type)`.

The guard tests membership in the static `default_schedule` dict — not the
set of currently registered jobs.  On a hit it runs
`_generate_and_send_content` and returns `True` unconditionally; the
scheduler state (in particular every job's `next_run`) is untouched either
way. -/
def run_content_now (st : SchedState) (cfg : BotCfg)
    (gen : String → Option String) (api : Nat → String → SendRes)
    (content_type : String) : Bool × SchedState × List SchedEv :=
  if (defaultSchedule.map Prod.fst).contains content_type then
    (true, st, SchedEv.triggered content_type ::
      generate_and_send_content cfg gen api content_type)
  else
    (false, st, [SchedEv.unknownType content_type])

/-- Outcomes of the environment one supervisor iteration runs against:
whether each startup validation succeeds and whether the startup
notification send raises. -/
structure StartEnv where
  config_ok : Bool
  telegram_ok : Bool
  generator_ok : Bool
  notify_fails : Bool
deriving DecidableEq

/-- Observable steps of one iteration of `IslamicTelegramBot.start`'s
`while True` body. -/
inductive SupEv where
  | logStart : SupEv
  | validateConfig : SupEv
  | testTelegram : SupEv
  | testGenerator : SupEv
  | sendNotify : SupEv
  | warnNotify : SupEv
  | startPolling : SupEv
  | runScheduler : SupEv
  | logSchedulerStopped : SupEv
  | supSleep (secs : Nat) : SupEv
deriving DecidableEq

/-- What the loop body does after it finishes: go round the `while True`
again, or leave the loop.  The source has no `break` or `return`, so the
embedding must show the second constructor is never produced. -/
inductive SupNext where
  | continueLoop : SupNext
  | exitProcess : SupNext
deriving DecidableEq

/-- One iteration of the `while True` body of `IslamicTelegramBot.start`:
validate the configuration, test the Telegram connection, test the content
generator — each failure logs, sleeps 30 seconds and goes round again — then
send the startup notification (a raise is caught and logged as a warning),
start background polling and run the scheduler loop in the foreground.  If
that foreground call returns, the body logs the anomaly, sleeps 10 seconds
and goes round again; the loop is never exited. -/
def start_iteration (env : StartEnv) : List SupEv × SupNext :=
  let l0 := [SupEv.logStart, SupEv.validateConfig]
  if env.config_ok = false then
    (l0 ++ [SupEv.supSleep 30], SupNext.continueLoop)
  else
    let l1 := l0 ++ [SupEv.testTelegram]
    if env.telegram_ok = false then
      (l1 ++ [SupEv.supSleep 30], SupNext.continueLoop)
    else
      let l2 := l1 ++ [SupEv.testGenerator]
      if env.generator_ok = false then
        (l2 ++ [SupEv.supSleep 30], SupNext.continueLoop)
      else
        let l3 := l2 ++
          (if env.notify_fails then [SupEv.sendNotify, SupEv.warnNotify]
           else [SupEv.sendNotify])
        (l3 ++ [SupEv.startPolling, SupEv.runScheduler,
                SupEv.logSchedulerStopped, SupEv.supSleep 10],
         SupNext.continueLoop)

/-- A scheduler state whose registry was rebuilt from a custom mapping that
contains none of the default content types. -/
def customOnlyState : SchedState :=
  (setup_schedule initSchedState 0 (some [("night_azkar", "22:00")])).1

/-- The one-job registry used to witness C1. -/
def azkarJob : Job :=
  { content_type := "morning_azkar", time_of_day := 360, next_run := 360 }

theorem strTake_length (s : String) (n : Nat) : (strTake s n).length = min n s.length := by
  show (s.data.take n).length = min n s.length
  rw [List.length_take]
  rfl

theorem strApp_length (a b : String) : (a ++ b).length = a.length + b.length := by
  show (a.data ++ b.data).length = a.data.length + b.data.length
  exact List.length_append a.data b.data

theorem truncate_len (m : String) : (truncate m).length ≤ 4096 := by
  unfold truncate
  split
  · rw [strApp_length, strTake_length]
    have : ellipsisMark.length = 3 := rfl
    omega
  · omega

theorem truncate_id (m : String) (h : m.length ≤ 4096) : truncate m = m := by
  unfold truncate
  rw [if_neg]
  omega

theorem truncEvs_nil (m : String) (h : m.length ≤ 4096) : truncEvs m = [] := by
  unfold truncEvs
  rw [if_neg]
  omega

theorem rlBlock_succ (m : String) (n : Nat) :
    rlBlock m (n + 1) = Ev.attempt m :: Ev.sleepEv 60 :: rlBlock m n := by
  simp [rlBlock, List.replicate_succ]

theorem send_rl_aux (cfg : BotCfg) (api : Nat → String → SendRes)
    (hapi : ∀ n s, ∃ e, api n s = SendRes.apiErr e ∧ classify e = ErrKind.rate) :
    ∀ d k (m : String), m.length ≤ 4096 → cfg.retry_attempts - k = d →
      send_message cfg api m k = (false, rlBlock m (d + 1)) := by
  intro d
  induction d with
  | zero =>
    intro k m hm hk
    obtain ⟨e, he, hc⟩ := hapi k m
    rw [send_message, truncate_id m hm] at *
    rw [he]
    simp only [hc]
    rw [dif_neg (by omega)]
    simp [truncEvs_nil m hm, rlBlock, List.replicate_succ]
  | succ d ih =>
    intro k m hm hk
    obtain ⟨e, he, hc⟩ := hapi k m
    rw [send_message, truncate_id m hm]
    rw [he]
    simp only [hc]
    rw [dif_pos (by omega)]
    have hr := ih (k + 1) m hm (by omega)
    simp only [hr, truncEvs_nil m hm, rlBlock_succ]
    simp

theorem send_rl_top (cfg : BotCfg) (api : Nat → String → SendRes) (msg : String)
    (hapi : ∀ n s, ∃ e, api n s = SendRes.apiErr e ∧ classify e = ErrKind.rate) :
    send_message cfg api msg 0 =
      (false, truncEvs msg ++ rlBlock (truncate msg) (cfg.retry_attempts + 1)) := by
  obtain ⟨e, he, hc⟩ := hapi 0 (truncate msg)
  rw [send_message, he]
  simp only [hc]
  by_cases h0 : 0 < cfg.retry_attempts
  · rw [dif_pos h0]
    have hr := send_rl_aux cfg api hapi (cfg.retry_attempts - 1) 1 (truncate msg)
      (truncate_len msg) (by omega)
    simp only [hr]
    have : cfg.retry_attempts - 1 + 1 = cfg.retry_attempts := by omega
    rw [this]
    rw [rlBlock_succ]
  · rw [dif_neg h0]
    have : cfg.retry_attempts = 0 := by omega
    rw [this]
    simp [rlBlock, List.replicate_succ]

theorem countAttempts_append (a b : List Ev) :
    countAttempts (a ++ b) = countAttempts a + countAttempts b :=
  List.countP_append _ a b

theorem countAttempts_rlBlock (m : String) (n : Nat) :
    countAttempts (rlBlock m n) = n := by
  induction n with
  | zero => rfl
  | succ n ih =>
    rw [rlBlock_succ]
    simp only [countAttempts, List.countP_cons] at *
    simp [ih]

theorem countAttempts_truncEvs (m : String) : countAttempts (truncEvs m) = 0 := by
  unfold truncEvs
  split <;> rfl

theorem countSleeps_truncEvs (m : String) : countSleeps (truncEvs m) = 0 := by
  unfold countSleeps truncEvs
  split <;> rfl

/-- C2: with a transport that reports rate-limited on every attempt,
`send_message` returns failure after exactly `1 + retry_attempts` transport
tries (4 with the default configuration), and the trace is the
attempt/60-second-cooldown block repeated, so a fixed 60-second sleep
immediately precedes each retry. -/
theorem send_message_rate_limited_retries (cfg : BotCfg)
    (api : Nat → String → SendRes) (msg : String)
    (hapi : ∀ n s, ∃ e, api n s = SendRes.apiErr e ∧ classify e = ErrKind.rate) :
    (send_message cfg api msg 0).1 = false ∧
    (send_message cfg api msg 0).2 =
      truncEvs msg ++ rlBlock (truncate msg) (cfg.retry_attempts + 1) ∧
    countAttempts (send_message cfg api msg 0).2 = 1 + cfg.retry_attempts ∧
    1 + defaultBotCfg.retry_attempts = 4 := by
  have h := send_rl_top cfg api msg hapi
  refine ⟨by rw [h], by rw [h], ?_, rfl⟩
  rw [h]
  simp only [countAttempts_append, countAttempts_truncEvs, countAttempts_rlBlock]
  omega

/-- Witness for C2 at a concrete always-rate-limited transport. -/
theorem send_message_rate_limited_retries_witness :
    (send_message defaultBotCfg
        (fun _ _ => SendRes.apiErr "429: Too Many Requests") "hi" 0).1 = false ∧
    (send_message defaultBotCfg
        (fun _ _ => SendRes.apiErr "429: Too Many Requests") "hi" 0).2 =
      truncEvs "hi" ++ rlBlock (truncate "hi") (defaultBotCfg.retry_attempts + 1) ∧
    countAttempts (send_message defaultBotCfg
        (fun _ _ => SendRes.apiErr "429: Too Many Requests") "hi" 0).2 =
      1 + defaultBotCfg.retry_attempts ∧
    1 + defaultBotCfg.retry_attempts = 4 :=
  send_message_rate_limited_retries defaultBotCfg _ "hi"
    (fun _ _ => ⟨"429: Too Many Requests", rfl, by decide⟩)

/-- C3: with a transport whose first answer classifies as permanent
(`chat not found` / `bot was blocked`), `send_message` makes exactly one
try, sleeps never, and fails immediately. -/
theorem send_message_permanent_no_retry (cfg : BotCfg)
    (api : Nat → String → SendRes) (msg e : String)
    (hapi : api 0 (truncate msg) = SendRes.apiErr e)
    (hc : classify e = ErrKind.permanent) :
    send_message cfg api msg 0 =
      (false, truncEvs msg ++ [Ev.attempt (truncate msg)]) ∧
    countAttempts (send_message cfg api msg 0).2 = 1 ∧
    countSleeps (send_message cfg api msg 0).2 = 0 := by
  have h : send_message cfg api msg 0 =
      (false, truncEvs msg ++ [Ev.attempt (truncate msg)]) := by
    rw [send_message, hapi]
    simp only [hc]
  refine ⟨h, ?_, ?_⟩ <;> rw [h]
  · simp only [countAttempts_append, countAttempts_truncEvs]
    rfl
  · unfold countSleeps at *
    rw [List.countP_append]
    have := countSleeps_truncEvs msg
    unfold countSleeps at this
    rw [this]
    rfl

/-- Witness for C3 at a concrete `chat not found` transport. -/
theorem send_message_permanent_no_retry_witness :
    send_message defaultBotCfg (fun _ _ => SendRes.apiErr "400: chat not found")
        "hello" 0 =
      (false, truncEvs "hello" ++ [Ev.attempt (truncate "hello")]) ∧
    countAttempts (send_message defaultBotCfg
        (fun _ _ => SendRes.apiErr "400: chat not found") "hello" 0).2 = 1 ∧
    countSleeps (send_message defaultBotCfg
        (fun _ _ => SendRes.apiErr "400: chat not found") "hello" 0).2 = 0 :=
  send_message_permanent_no_retry defaultBotCfg _ "hello" "400: chat not found"
    rfl (by decide)

/-- C4: `send_message` always hands the transport a text of length at most
4096: a text at or under the limit goes out unmodified (and no warning is
logged), a longer text is cut to its first 4090 code points plus the
three-character ellipsis marker — total length 4093 — with the truncation
warning logged. -/
theorem send_message_truncates_oversized (cfg : BotCfg)
    (api : Nat → String → SendRes) (msg : String)
    (hapi : api 0 (truncate msg) = SendRes.ok) :
    send_message cfg api msg 0 =
      (true, truncEvs msg ++ [Ev.attempt (truncate msg)]) ∧
    (truncate msg).length ≤ 4096 ∧
    (msg.length ≤ 4096 → truncate msg = msg ∧ truncEvs msg = []) ∧
    (4096 < msg.length → truncate msg = strTake msg 4090 ++ ellipsisMark ∧
      (truncate msg).length = 4093 ∧ ellipsisMark.length = 3 ∧
      truncEvs msg = [Ev.truncWarn]) := by
  refine ⟨by rw [send_message, hapi], truncate_len msg, ?_, ?_⟩
  · intro h
    exact ⟨truncate_id msg h, truncEvs_nil msg h⟩
  · intro h
    have ht : truncate msg = strTake msg 4090 ++ ellipsisMark := by
      unfold truncate
      rw [if_pos]
      omega
    refine ⟨ht, ?_, rfl, ?_⟩
    · rw [ht, strApp_length, strTake_length]
      have : ellipsisMark.length = 3 := rfl
      omega
    · unfold truncEvs
      rw [if_pos]
      omega

/-- Witness for C4 at a concrete 4097-character text. -/
theorem send_message_truncates_oversized_witness :
    send_message defaultBotCfg (fun _ _ => SendRes.ok)
        (String.mk (List.replicate 4097 'a')) 0 =
      (true, truncEvs (String.mk (List.replicate 4097 'a')) ++
        [Ev.attempt (truncate (String.mk (List.replicate 4097 'a')))]) ∧
    (truncate (String.mk (List.replicate 4097 'a'))).length ≤ 4096 ∧
    truncate (String.mk (List.replicate 4097 'a')) =
      strTake (String.mk (List.replicate 4097 'a')) 4090 ++ ellipsisMark ∧
    (truncate (String.mk (List.replicate 4097 'a'))).length = 4093 ∧
    ellipsisMark.length = 3 ∧
    truncEvs (String.mk (List.replicate 4097 'a')) = [Ev.truncWarn] := by
  have hlong : 4096 < (String.mk (List.replicate 4097 'a')).length := by
    have : (String.mk (List.replicate 4097 'a')).length = 4097 := by
      show (List.replicate 4097 'a').length = 4097
      rw [List.length_replicate]
    omega
  have h := send_message_truncates_oversized defaultBotCfg (fun _ _ => SendRes.ok)
    (String.mk (List.replicate 4097 'a')) rfl
  exact ⟨h.1, h.2.1, (h.2.2.2 hlong).1, (h.2.2.2 hlong).2.1,
    (h.2.2.2 hlong).2.2.1, (h.2.2.2 hlong).2.2.2⟩

theorem lookup_none_of_not_mem_keys (l : List (String × String)) (a : String)
    (h : a ∉ l.map Prod.fst) : l.lookup a = none := by
  induction l with
  | nil => rfl
  | cons p rest ih =>
    simp only [List.map_cons, List.mem_cons] at h
    push_neg at h
    rw [List.lookup_cons]
    have hne : (a == p.1) = false := by
      simp [h.1]
    rw [hne]
    exact ih h.2

theorem mem_insertJob (a j : Job) (l : List Job) :
    a ∈ insertJob j l ↔ a = j ∨ a ∈ l := by
  induction l with
  | nil => simp [insertJob]
  | cons x xs ih =>
    unfold insertJob
    split
    · simp
    · simp only [List.mem_cons, ih]
      tauto

theorem mem_sortJobs (a : Job) (l : List Job) : a ∈ sortJobs l ↔ a ∈ l := by
  induction l with
  | nil => simp [sortJobs]
  | cons x xs ih =>
    unfold sortJobs
    rw [mem_insertJob]
    simp [ih]

theorem length_insertJob (j : Job) (l : List Job) :
    (insertJob j l).length = l.length + 1 := by
  induction l with
  | nil => rfl
  | cons x xs ih =>
    unfold insertJob
    split
    · rfl
    · simp only [List.length_cons, ih]

theorem length_sortJobs (l : List Job) : (sortJobs l).length = l.length := by
  induction l with
  | nil => rfl
  | cons x xs ih =>
    unfold sortJobs
    rw [length_insertJob, ih]
    rfl

theorem length_filterMap_all_parse (now : Nat) (l : List (String × String))
    (h : ∀ p ∈ l, (parseTimeOfDay p.2).isSome) :
    (l.filterMap (mkJob now)).length = l.length := by
  induction l with
  | nil => rfl
  | cons p rest ih =>
    have hp : (parseTimeOfDay p.2).isSome := h p (List.mem_cons_self p rest)
    have hj : (mkJob now p).isSome := by
      unfold mkJob
      cases hcase : parseTimeOfDay p.2
      · rw [hcase] at hp
        exact absurd hp (by decide)
      · rfl
    obtain ⟨j, hjeq⟩ := Option.isSome_iff_exists.mp hj
    rw [List.filterMap_cons, hjeq]
    simp only [List.length_cons]
    rw [ih fun q hq => h q (List.mem_cons_of_mem p hq)]

/-- C10: `send_formatted_content` rejects empty content before any transport
interaction — it returns failure with an empty trace, so no attempt event
exists — and for non-empty content of an unknown content type it prefixes
the generic marker and generic title and delegates to `send_message`. -/
theorem send_formatted_content_empty_guard (cfg : BotCfg)
    (api : Nat → String → SendRes) (ct content : String) :
    (send_formatted_content cfg api ct "" = (false, []) ∧
      countAttempts (send_formatted_content cfg api ct "").2 = 0) ∧
    (content ≠ "" → ct ∉ titles.map Prod.fst → ct ∉ emoji_map.map Prod.fst →
      send_formatted_content cfg api ct content =
        send_message cfg api
          (genericEmoji ++ " <b>" ++ genericTitle ++ "</b>\n\n" ++ content) 0) := by
  constructor
  · constructor
    · unfold send_formatted_content
      rw [if_pos rfl]
    · unfold send_formatted_content
      rw [if_pos rfl]
      rfl
  · intro hne ht he
    unfold send_formatted_content
    rw [if_neg hne]
    unfold formatContent
    rw [lookup_none_of_not_mem_keys emoji_map ct he]
    unfold get_content_title
    rw [lookup_none_of_not_mem_keys titles ct ht]
    rfl

/-- Witness for C10 at a concrete unknown content type. -/
theorem send_formatted_content_empty_guard_witness :
    send_formatted_content defaultBotCfg (fun _ _ => SendRes.ok) "weekly_tafsir" ""
      = (false, []) ∧
    countAttempts (send_formatted_content defaultBotCfg (fun _ _ => SendRes.ok)
      "weekly_tafsir" "").2 = 0 ∧
    send_formatted_content defaultBotCfg (fun _ _ => SendRes.ok)
        "weekly_tafsir" "hello" =
      send_message defaultBotCfg (fun _ _ => SendRes.ok)
        (genericEmoji ++ " <b>" ++ genericTitle ++ "</b>\n\n" ++ "hello") 0 :=
  ⟨(send_formatted_content_empty_guard defaultBotCfg (fun _ _ => SendRes.ok)
      "weekly_tafsir" "hello").1.1,
   (send_formatted_content_empty_guard defaultBotCfg (fun _ _ => SendRes.ok)
      "weekly_tafsir" "hello").1.2,
   (send_formatted_content_empty_guard defaultBotCfg (fun _ _ => SendRes.ok)
      "weekly_tafsir" "hello").2 (by decide) (by decide) (by decide)⟩

/-- C9: for every content type the static guard accepts, `run_content_now`
returns `True` no matter what the generator or the transport do — every
generation or delivery failure is swallowed inside
`_generate_and_send_content`. -/
theorem run_content_now_always_true (st : SchedState) (cfg : BotCfg)
    (gen : String → Option String) (api : Nat → String → SendRes) (ct : String)
    (h : ct ∈ defaultSchedule.map Prod.fst) :
    (run_content_now st cfg gen api ct).1 = true := by
  unfold run_content_now
  rw [if_pos]
  exact List.elem_iff.mpr h

/-- Witness for C9: a recognized type whose generation produces nothing
still yields `True`. -/
theorem run_content_now_always_true_witness :
    (run_content_now initSchedState defaultBotCfg (fun _ => none)
      (fun _ _ => SendRes.apiErr "400: chat not found") "morning_azkar").1 = true :=
  run_content_now_always_true initSchedState defaultBotCfg _ _ "morning_azkar"
    (by decide)

/-- Counterexample to C6: `"morning_azkar"` was never registered in
`customOnlyState` — the registry holds only `"night_azkar"` — yet
`run_content_now` does not fail fast on it: the guard consults the static
`default_schedule` dict, not the registered jobs, and returns `True`. -/
theorem run_content_now_unregistered_cex :
    ("morning_azkar" ∉ customOnlyState.jobs.map Job.content_type) ∧
    (run_content_now customOnlyState defaultBotCfg (fun _ => none)
      (fun _ _ => SendRes.ok) "morning_azkar").1 = true := by
  constructor
  · decide
  · decide

/-- C6 (amended): `run_content_now` succeeds exactly when the content type is
a key of the static built-in `default_schedule` mapping — regardless of what
is currently registered.  On a hit it performs the generate-then-deliver
sequence immediately; the scheduler state, hence every job's `next_run`, is
returned unchanged; on a miss it returns `False` with only the
unknown-content-type log. -/
theorem run_content_now_checks_default_schedule (st : SchedState) (cfg : BotCfg)
    (gen : String → Option String) (api : Nat → String → SendRes) (ct : String) :
    ((run_content_now st cfg gen api ct).1 = true ↔
      ct ∈ defaultSchedule.map Prod.fst) ∧
    (run_content_now st cfg gen api ct).2.1 = st ∧
    (ct ∈ defaultSchedule.map Prod.fst →
      (run_content_now st cfg gen api ct).2.2 =
        SchedEv.triggered ct :: generate_and_send_content cfg gen api ct) ∧
    (ct ∉ defaultSchedule.map Prod.fst →
      (run_content_now st cfg gen api ct).1 = false ∧
      (run_content_now st cfg gen api ct).2.2 = [SchedEv.unknownType ct]) := by
  unfold run_content_now
  by_cases h : ct ∈ defaultSchedule.map Prod.fst
  · rw [if_pos (List.elem_iff.mpr h)]
    refine ⟨by simp [h], rfl, fun _ => rfl, fun hc => absurd h hc⟩
  · have : ¬ (defaultSchedule.map Prod.fst).contains ct := by
      intro hc
      exact h (List.elem_iff.mp hc)
    rw [if_neg this]
    refine ⟨by simp [h], rfl, fun hc => absurd hc h, fun _ => ⟨rfl, rfl⟩⟩

/-- Witness for C6 (amended), exercising both the hit and miss branches at
concrete inputs. -/
theorem run_content_now_checks_default_schedule_witness :
    (run_content_now customOnlyState defaultBotCfg (fun _ => none)
      (fun _ _ => SendRes.ok) "morning_azkar").1 = true ∧
    (run_content_now customOnlyState defaultBotCfg (fun _ => none)
      (fun _ _ => SendRes.ok) "morning_azkar").2.1 = customOnlyState ∧
    (run_content_now customOnlyState defaultBotCfg (fun _ => none)
      (fun _ _ => SendRes.ok) "night_azkar").1 = false :=
  ⟨(run_content_now_checks_default_schedule customOnlyState defaultBotCfg
      (fun _ => none) (fun _ _ => SendRes.ok) "morning_azkar").1.mpr (by decide),
   (run_content_now_checks_default_schedule customOnlyState defaultBotCfg
      (fun _ => none) (fun _ _ => SendRes.ok) "morning_azkar").2.1,
   ((run_content_now_checks_default_schedule customOnlyState defaultBotCfg
      (fun _ => none) (fun _ _ => SendRes.ok) "night_azkar").2.2.2 (by decide)).1⟩

/-- Counterexample to C5: `setup_schedule` with an **empty** mapping does not
leave the registry empty.  `schedule_times = custom_times or
self.default_schedule` treats an empty dict as falsy, so the call schedules
the eight built-in defaults: `total_jobs` is 8, not 0, and `peekUpcoming` is
non-empty. -/
theorem setup_schedule_empty_mapping_cex :
    ¬ ((get_schedule_status
          (setup_schedule initSchedState 0 (some [])).1).total_jobs = 0 ∧
       peekUpcoming (setup_schedule initSchedState 0 (some [])).1.jobs 3 = []) := by
  decide

/-- C5 (amended): `setSchedule` with an empty mapping falls back to the
built-in default schedule: the registry ends up with the eight default jobs
(`status().total_jobs = 8`) and `peekUpcoming` returns a non-empty
sequence. -/
theorem setup_schedule_empty_mapping_defaults (st : SchedState) (now : Nat) :
    (setup_schedule st now (some [])).1.jobs =
      defaultSchedule.filterMap (mkJob now) ∧
    (get_schedule_status (setup_schedule st now (some [])).1).total_jobs = 8 ∧
    peekUpcoming (setup_schedule st now (some [])).1.jobs 3 ≠ [] := by
  refine ⟨rfl, ?_, ?_⟩
  · show (defaultSchedule.filterMap (mkJob now)).length = 8
    rw [length_filterMap_all_parse now defaultSchedule (by decide)]
    rfl
  · intro hempty
    have hlen : (peekUpcoming (setup_schedule st now (some [])).1.jobs 3).length = 3 := by
      unfold peekUpcoming
      rw [List.length_map, List.length_take, length_sortJobs]
      show min 3 (defaultSchedule.filterMap (mkJob now)).length = 3
      rw [length_filterMap_all_parse now defaultSchedule (by decide)]
      decide
    rw [hempty] at hlen
    exact absurd hlen (by decide)

/-- C7: during `setup_schedule`, a single entry whose time string is
unparseable is skipped and logged with an error event, while every other
well-formed entry is still scheduled; the call itself is a total function
and never fails. -/
theorem setup_schedule_skips_malformed (st : SchedState) (now : Nat)
    (pre post : List (String × String)) (bad : String × String)
    (hbad : parseTimeOfDay bad.2 = none)
    (hgood : ∀ p ∈ pre ++ post, (parseTimeOfDay p.2).isSome) :
    (setup_schedule st now (some (pre ++ bad :: post))).1.jobs =
      (pre ++ post).filterMap (mkJob now) ∧
    (setup_schedule st now (some (pre ++ bad :: post))).1.jobs.length =
      (pre ++ post).length ∧
    SchedEv.skipError bad.1 bad.2 ∈
      (setup_schedule st now (some (pre ++ bad :: post))).2 := by
  have hne : ¬ (pre ++ bad :: post = []) := by simp
  have hbadjob : mkJob now bad = none := by
    unfold mkJob
    rw [hbad]
    rfl
  have hjobs : (setup_schedule st now (some (pre ++ bad :: post))).1.jobs =
      (pre ++ post).filterMap (mkJob now) := by
    show (if pre ++ bad :: post = [] then defaultSchedule
          else pre ++ bad :: post).filterMap (mkJob now) = _
    rw [if_neg hne]
    rw [List.filterMap_append, List.filterMap_cons, hbadjob,
        List.filterMap_append]
  refine ⟨hjobs, ?_, ?_⟩
  · rw [hjobs]
    exact length_filterMap_all_parse now (pre ++ post) hgood
  · show SchedEv.skipError bad.1 bad.2 ∈
      (if pre ++ bad :: post = [] then defaultSchedule
       else pre ++ bad :: post).map _
    rw [if_neg hne]
    have hmem : bad ∈ pre ++ bad :: post := by simp
    have h2 := List.mem_map_of_mem
      (fun p : String × String =>
        if (parseTimeOfDay p.2).isSome then SchedEv.scheduled p.1 p.2
        else SchedEv.skipError p.1 p.2) hmem
    have h3 : (fun p : String × String =>
        if (parseTimeOfDay p.2).isSome then SchedEv.scheduled p.1 p.2
        else SchedEv.skipError p.1 p.2) bad = SchedEv.skipError bad.1 bad.2 := by
      simp [hbad]
    exact h3 ▸ h2

/-- Witness for C7: one malformed entry between two good ones. -/
theorem setup_schedule_skips_malformed_witness :
    (setup_schedule initSchedState 0
        (some [("morning_azkar", "06:00"), ("daily_hadith", "noon"),
               ("evening_azkar", "21:00")])).1.jobs =
      [("morning_azkar", "06:00"), ("evening_azkar", "21:00")].filterMap (mkJob 0) ∧
    (setup_schedule initSchedState 0
        (some [("morning_azkar", "06:00"), ("daily_hadith", "noon"),
               ("evening_azkar", "21:00")])).1.jobs.length =
      ([("morning_azkar", "06:00")] ++ [("evening_azkar", "21:00")]).length ∧
    SchedEv.skipError "daily_hadith" "noon" ∈
      (setup_schedule initSchedState 0
        (some [("morning_azkar", "06:00"), ("daily_hadith", "noon"),
               ("evening_azkar", "21:00")])).2 :=
  setup_schedule_skips_malformed initSchedState 0
    [("morning_azkar", "06:00")] [("evening_azkar", "21:00")]
    ("daily_hadith", "noon") (by decide) (by decide)

theorem dueJobs_ct_preserved (now : Nat) (j0 : Job) :
    (if j0.next_run ≤ now then { j0 with next_run := j0.next_run + dayMinutes }
     else j0).content_type = j0.content_type := by
  split <;> rfl

/-- C1: a job that `dueJobs(now)` fires — one due at `now` and, per the
spec's 30-second tick cadence, less than one day overdue — is returned
exactly once in the tick: it appears in the returned sequence, its
`next_run` in the updated registry is exactly one day after its old value
and strictly exceeds `now`, and a second `dueJobs` call at the same `now`
does not return it again.  The content-type uniqueness hypothesis is the
spec's one-job-per-content-type registry invariant. -/
theorem dueJobs_advances_next_run (now : Nat) (jobs : List Job) (j : Job)
    (hmem : j ∈ jobs) (hdue : j.next_run ≤ now)
    (hfresh : now < j.next_run + dayMinutes)
    (hnodup : (jobs.map Job.content_type).Nodup) :
    j.content_type ∈ (dueJobs now jobs).1 ∧
    (∀ j' ∈ (dueJobs now jobs).2, j'.content_type = j.content_type →
      j'.next_run = j.next_run + dayMinutes ∧ now < j'.next_run) ∧
    ({ j with next_run := j.next_run + dayMinutes } ∈ (dueJobs now jobs).2) ∧
    j.content_type ∉ (dueJobs now (dueJobs now jobs).2).1 := by
  have hadv : ∀ j' ∈ (dueJobs now jobs).2, j'.content_type = j.content_type →
      j'.next_run = j.next_run + dayMinutes ∧ now < j'.next_run := by
    intro j' hj' hct
    unfold dueJobs at hj'
    obtain ⟨j0, hj0mem, hj0eq⟩ := List.mem_map.mp hj'
    have hct0 : j0.content_type = j.content_type := by
      rw [← hct, ← hj0eq]
      exact (dueJobs_ct_preserved now j0).symm
    have : j0 = j := List.inj_on_of_nodup_map hnodup hj0mem hmem hct0
    subst this
    rw [← hj0eq, if_pos hdue]
    exact ⟨rfl, hfresh⟩
  refine ⟨?_, hadv, ?_, ?_⟩
  · unfold dueJobs
    apply List.mem_map_of_mem
    rw [mem_sortJobs]
    exact List.mem_filter.mpr ⟨hmem, by simpa using hdue⟩
  · unfold dueJobs
    have : { j with next_run := j.next_run + dayMinutes } =
        (if j.next_run ≤ now then { j with next_run := j.next_run + dayMinutes }
         else j) := by
      rw [if_pos hdue]
    rw [this]
    exact List.mem_map_of_mem _ hmem
  · intro hsecond
    unfold dueJobs at hsecond
    obtain ⟨j'', hj''mem, hj''ct⟩ := List.mem_map.mp hsecond
    rw [mem_sortJobs] at hj''mem
    have hj''filter := List.mem_filter.mp hj''mem
    have hj''due : j''.next_run ≤ now := by simpa using hj''filter.2
    have := hadv j'' hj''filter.1 hj''ct
    omega

/-- Witness for C1 at a one-job registry due exactly at `now = 360`. -/
theorem dueJobs_advances_next_run_witness :
    azkarJob.content_type ∈ (dueJobs 360 [azkarJob]).1 ∧
    ({ azkarJob with next_run := azkarJob.next_run + dayMinutes } ∈
      (dueJobs 360 [azkarJob]).2) ∧
    azkarJob.content_type ∉ (dueJobs 360 (dueJobs 360 [azkarJob]).2).1 :=
  ⟨(dueJobs_advances_next_run 360 [azkarJob] azkarJob
      (by decide) (by decide) (by decide) (by decide)).1,
   (dueJobs_advances_next_run 360 [azkarJob] azkarJob
      (by decide) (by decide) (by decide) (by decide)).2.2.1,
   (dueJobs_advances_next_run 360 [azkarJob] azkarJob
      (by decide) (by decide) (by decide) (by decide)).2.2.2⟩

/-- C8: when the foreground scheduler call returns (all startup validations
having succeeded), the supervisor iteration logs the anomaly, sleeps the
fixed 10 seconds, and goes round the `while True` again rather than exiting;
every iteration — whatever the environment — continues the loop and begins
with the validation step. -/
theorem supervisor_restarts_after_scheduler_return (env : StartEnv)
    (h1 : env.config_ok = true) (h2 : env.telegram_ok = true)
    (h3 : env.generator_ok = true) :
    (start_iteration env).2 = SupNext.continueLoop ∧
    (start_iteration env).1 =
      [SupEv.logStart, SupEv.validateConfig, SupEv.testTelegram,
       SupEv.testGenerator] ++
      (if env.notify_fails then [SupEv.sendNotify, SupEv.warnNotify]
       else [SupEv.sendNotify]) ++
      [SupEv.startPolling, SupEv.runScheduler, SupEv.logSchedulerStopped,
       SupEv.supSleep 10] ∧
    (∀ env' : StartEnv, (start_iteration env').2 = SupNext.continueLoop) ∧
    (∀ env' : StartEnv, (start_iteration env').1.take 2 =
      [SupEv.logStart, SupEv.validateConfig]) := by
  refine ⟨?_, ?_, ?_, ?_⟩
  · unfold start_iteration
    rw [h1, h2, h3]
    simp
  · unfold start_iteration
    rw [h1, h2, h3]
    simp
  · intro env'
    rcases env' with ⟨c, t, g, n⟩
    cases c <;> cases t <;> cases g <;> cases n <;> decide
  · intro env'
    rcases env' with ⟨c, t, g, n⟩
    cases c <;> cases t <;> cases g <;> cases n <;> decide

/-- Witness for C8 at a concrete all-validations-pass environment. -/
theorem supervisor_restarts_after_scheduler_return_witness :
    (start_iteration
      { config_ok := true, telegram_ok := true, generator_ok := true,
        notify_fails := false }).2 = SupNext.continueLoop ∧
    (start_iteration
      { config_ok := true, telegram_ok := true, generator_ok := true,
        notify_fails := false }).1 =
      [SupEv.logStart, SupEv.validateConfig, SupEv.testTelegram,
       SupEv.testGenerator, SupEv.sendNotify, SupEv.startPolling,
       SupEv.runScheduler, SupEv.logSchedulerStopped, SupEv.supSleep 10] ∧
    (start_iteration
      { config_ok := false, telegram_ok := true, generator_ok := true,
        notify_fails := false }).1.take 2 =
      [SupEv.logStart, SupEv.validateConfig] := by
  have h := supervisor_restarts_after_scheduler_return
    { config_ok := true, telegram_ok := true, generator_ok := true,
      notify_fails := false } rfl rfl rfl
  refine ⟨h.1, ?_, ?_⟩
  · rw [h.2.1]
    decide
  · exact h.2.2.2
      { config_ok := false, telegram_ok := true, generator_ok := true,
        notify_fails := false }

/-- Witness for C5 (amended) at a fresh scheduler and `now = 0`. -/
theorem setup_schedule_empty_mapping_defaults_witness :
    (setup_schedule initSchedState 0 (some [])).1.jobs =
      defaultSchedule.filterMap (mkJob 0) ∧
    (get_schedule_status (setup_schedule initSchedState 0 (some [])).1).total_jobs
      = 8 ∧
    peekUpcoming (setup_schedule initSchedState 0 (some [])).1.jobs 3 ≠ [] :=
  setup_schedule_empty_mapping_defaults initSchedState 0
